import Mathlib

/-!
Verification development for the Oxford IPS 120-10 magnet power-supply driver
(`pymeasure/instruments/oxfordinstruments/ips120_10.py`).

The driver is embedded shallowly: the device-resident registers form a
`DeviceState`, every command sent to the channel is recorded as an `Event`
in a trace, and each driver method becomes a function from a configuration
and a device state to an `Outcome` (success or a raised error, each carrying
the device state reached and the trace of commands emitted by the call).
Register reads are pure lookups in the state and emit no trace event, since
the properties of interest only count writes.

Field values are modelled as rationals. The physical response of the magnet
(ramping to the demand target while `wait_for_idle` polls, and the persistent
switch trapping the demand field when the heater is switched off) is modelled
by `settle` and `applyHeater`; the driver code itself only polls and writes.
-/

namespace IPS120

/-- The activity register, mapped in the source to codes hold=0,
to setpoint=1, to zero=2, clamp=4. -/
inductive Activity
  | hold
  | toSetpoint
  | toZero
  | clamp
deriving DecidableEq, Repr

/-- One command written to the channel, or one timing action taken by the
driver. Reads are not recorded. -/
inductive Event
  | writeControlMode (code : ℕ)
  | writeActivity (a : Activity)
  | writeHeater (code : ℕ)
  | writeFieldSetpoint (x : ℚ)
  | writeSweepRate (x : ℚ)
  | sleepFor (secs : ℚ)
  | waitIdle
deriving DecidableEq, Repr

/-- The errors the driver raises. `notAtRest`, `persistentModeNotAllowed`,
`tooManyErrors` and `fieldNotZero` are `MagnetError`s in the source;
`switchHeaterStatus` is `SwitchHeaterStatusError`; `timeoutErr` is Python
`TimeoutError`; `setpointOutOfRange` is the rejection of the setpoint
validator. -/
inductive DriverError
  | notAtRest
  | persistentModeNotAllowed
  | switchHeaterStatus (code : ℕ)
  | tooManyErrors
  | fieldNotZero
  | setpointOutOfRange (x : ℚ)
  | timeoutErr
deriving DecidableEq, Repr

/-- Which errors are instances of the `MagnetError` class in the source. -/
def DriverError.isMagnetError : DriverError → Bool
  | .notAtRest => true
  | .persistentModeNotAllowed => true
  | .tooManyErrors => true
  | .fieldNotZero => true
  | .setpointOutOfRange _ => true
  | .switchHeaterStatus _ => false
  | .timeoutErr => false

/-- The device-resident registers the driver reads and writes.
`heater` is the raw switch-heater status code (0 = off-closed, 1 = on,
2 = off-open); `sweepStatus` code 0 means at rest. -/
structure DeviceState where
  controlMode : ℕ
  activity : Activity
  heater : ℕ
  sweepStatus : ℕ
  demandField : ℚ
  persistentField : ℚ
  fieldSetpoint : ℚ
  sweepRate : ℚ
deriving DecidableEq, Repr

/-- Per-call configuration of the driver: field range bounds and the
switch-heater settle delay. -/
structure Config where
  lo : ℚ
  hi : ℚ
  switchHeaterDelay : ℚ
deriving DecidableEq, Repr

/-- Result of one driver method: success or a raised error, with the device
state reached and the trace of commands emitted by this call. -/
inductive Outcome
  | ok (s : DeviceState) (tr : List Event)
  | err (e : DriverError) (s : DeviceState) (tr : List Event)
deriving DecidableEq, Repr

/-- The `field` property: effective field. Source lines 234-249: heater code
0 or 2 reads the persistent field, code 1 the demand field, anything else
logs an error and falls back to the demand field. -/
def field (s : DeviceState) : ℚ :=
  if s.heater = 0 ∨ s.heater = 2 then s.persistentField
  else if s.heater = 1 then s.demandField
  else s.demandField

/-- Device model: the magnet response observed by a completed
`wait_for_idle` poll. Ramping finishes (demand field reaches the target
selected by the activity register) and the sweep status reports at rest. -/
def settle (s : DeviceState) : DeviceState :=
  match s.activity with
  | .toSetpoint => { s with demandField := s.fieldSetpoint, sweepStatus := 0 }
  | .toZero => { s with demandField := 0, sweepStatus := 0 }
  | .hold => { s with sweepStatus := 0 }
  | .clamp => { s with sweepStatus := 0 }

/-- Device model: writing the switch-heater register. Turning the heater off
closes the persistent switch, trapping the present demand field as the
persistent field. -/
def applyHeater (s : DeviceState) (code : ℕ) : DeviceState :=
  if code = 0 then { s with heater := 0, persistentField := s.demandField }
  else { s with heater := code }

/-- Modelled from the spec: the `field_setpoint` setter validates the value
against the configured field range before transmitting. The validator
(`pymeasure.instruments.validators`, referenced at source lines 200-207) is
not under src/; the spec states that setpoint encoding must reject values
outside the configured numeric bounds before transmission, so the rejected
value produces an error and no write. -/
def setFieldSetpoint (cfg : Config) (s : DeviceState) (x : ℚ) : Outcome :=
  if cfg.lo ≤ x ∧ x ≤ cfg.hi then
    .ok { s with fieldSetpoint := x } [.writeFieldSetpoint x]
  else
    .err (.setpointOutOfRange x) s []

/-- `enable_persistent_mode` (source lines 274-291): require at rest; heater
0 or 2 is a no-op; heater 1 holds, switches the heater off, sleeps the settle
delay, ramps to zero and waits for idle; any other heater code raises
`SwitchHeaterStatusError`. -/
def enable_persistent_mode (cfg : Config) (s : DeviceState) : Outcome :=
  if s.sweepStatus ≠ 0 then .err .notAtRest s []
  else if s.heater = 0 ∨ s.heater = 2 then .ok s []
  else if s.heater = 1 then
    let s1 := { s with activity := Activity.hold }
    let s2 := applyHeater s1 0
    let s3 := { s2 with activity := Activity.toZero }
    let s4 := settle s3
    .ok s4 [Event.writeActivity Activity.hold, Event.writeHeater 0,
            Event.sleepFor cfg.switchHeaterDelay,
            Event.writeActivity Activity.toZero, Event.waitIdle]
  else .err (.switchHeaterStatus s.heater) s []

/-- `disable_persistent_mode` (source lines 293-316): require at rest; if the
effective field differs from the setpoint, reconcile the setpoint to the
effective field (before the heater branch); heater 1 then returns; heater 0
or 2 ramps to the setpoint, waits for idle, holds, switches the heater on and
sleeps the settle delay; any other heater code raises
`SwitchHeaterStatusError`. -/
def disable_persistent_mode (cfg : Config) (s : DeviceState) : Outcome :=
  if s.sweepStatus ≠ 0 then .err .notAtRest s []
  else
    match (if field s ≠ s.fieldSetpoint then setFieldSetpoint cfg s (field s)
           else .ok s []) with
    | .err e s' tr => .err e s' tr
    | .ok s0 tr0 =>
      if s0.heater = 1 then .ok s0 tr0
      else if s0.heater = 0 ∨ s0.heater = 2 then
        let s1 := { s0 with activity := Activity.toSetpoint }
        let s2 := settle s1
        let s3 := { s2 with activity := Activity.hold }
        let s4 := applyHeater s3 1
        .ok s4 (tr0 ++ [Event.writeActivity Activity.toSetpoint, Event.waitIdle,
                        Event.writeActivity Activity.hold, Event.writeHeater 1,
                        Event.sleepFor cfg.switchHeaterDelay])
      else .err (.switchHeaterStatus s0.heater) s0 tr0

/-- `disable_control` (source lines 264-272): raise `MagnetError` when the
effective field is nonzero; otherwise switch the heater off, clamp the output
and set local-unlocked control (code 2). -/
def disable_control (s : DeviceState) : Outcome :=
  if field s ≠ 0 then .err .fieldNotZero s []
  else
    let s1 := applyHeater s 0
    let s2 := { s1 with activity := Activity.clamp }
    let s3 := { s2 with controlMode := 2 }
    .ok s3 [Event.writeHeater 0, Event.writeActivity Activity.clamp,
            Event.writeControlMode 2]

/-- `set_field` (source lines 351-396): return at once when the effective
field already equals the target; heater 1 continues, heater 0 or 2 either
disables persistent mode (when allowed) or raises `MagnetError`, any other
heater code falls through the if/elif chain and continues; then the optional
sweep-rate write; then either the to-zero activity (target 0) or the
to-setpoint activity followed by the setpoint write; then `wait_for_idle` and
a fixed 10 s sleep; finally `enable_persistent_mode` when allowed and the
target is nonzero. -/
def set_field (cfg : Config) (s : DeviceState) (target : ℚ)
    (rate? : Option ℚ) (pmc : Bool) : Outcome :=
  if field s = target then .ok s []
  else
    match (if s.heater = 1 then Outcome.ok s []
           else if s.heater = 0 ∨ s.heater = 2 then
             (if pmc then disable_persistent_mode cfg s
              else .err .persistentModeNotAllowed s [])
           else .ok s []) with
    | .err e s' tr => .err e s' tr
    | .ok s1 tr1 =>
      let s2 := match rate? with
        | some r => { s1 with sweepRate := r }
        | none => s1
      let tr2 := match rate? with
        | some r => [Event.writeSweepRate r]
        | none => []
      match (if target = 0 then
               Outcome.ok { s2 with activity := Activity.toZero }
                 [Event.writeActivity Activity.toZero]
             else
               match setFieldSetpoint cfg { s2 with activity := Activity.toSetpoint }
                       target with
               | .ok s' tr' =>
                 .ok s' (Event.writeActivity Activity.toSetpoint :: tr')
               | .err e s' tr' =>
                 .err e s' (Event.writeActivity Activity.toSetpoint :: tr')) with
      | .err e s' tr' => .err e s' (tr1 ++ tr2 ++ tr')
      | .ok s4 tr4 =>
        let s5 := settle s4
        let tr5 := tr1 ++ tr2 ++ tr4 ++ [Event.waitIdle, Event.sleepFor 10]
        if pmc ∧ target ≠ 0 then
          match enable_persistent_mode cfg s5 with
          | .err e s' tr' => .err e s' (tr5 ++ tr')
          | .ok s6 tr6 => .ok s6 (tr5 ++ tr6)
        else .ok s5 tr5

/-- The loop of `train_magnet` (source lines 406-407): run `set_field` for
each (field, rate) pair in order with persistent-mode control disabled,
propagating the first error. -/
def train_steps (cfg : Config) : List (ℚ × ℚ) → DeviceState → Outcome
  | [], s => .ok s []
  | (f, r) :: rest, s =>
    match set_field cfg s f (some r) false with
    | .err e s' tr => .err e s' tr
    | .ok s' tr =>
      match train_steps cfg rest s' with
      | .err e s'' tr' => .err e s'' (tr ++ tr')
      | .ok s'' tr' => .ok s'' (tr ++ tr')

/-- `train_magnet` (source lines 398-408): the training steps followed by
`set_field(0)` with its default `persistent_mode_control=True` and no sweep
rate. -/
def train_magnet (cfg : Config) (scheme : List (ℚ × ℚ)) (s : DeviceState) :
    Outcome :=
  match train_steps cfg scheme s with
  | .err e s' tr => .err e s' tr
  | .ok s' tr =>
    match set_field cfg s' 0 none true with
    | .err e s'' tr' => .err e s'' (tr ++ tr')
    | .ok s'' tr' => .ok s'' (tr ++ tr')

/-- Result of one `sweep_status` query inside `wait_for_idle`: a decoded
status code, or a channel/decode failure (the `ValueError` caught by the
loop). -/
inductive QueryResult
  | ok (code : ℕ)
  | ioError
deriving DecidableEq, Repr

/-- How the `wait_for_idle` loop ends. `done` is the normal break on an
at-rest status, `cancelled` the break on `should_stop`; `tooManyErrors`
models the raised `MagnetError` and `timeoutExceeded` the raised
`TimeoutError`. `fuelOut` only appears when the supplied fuel bound is
reached without the source loop having ended. -/
inductive WaitResult
  | done
  | cancelled
  | tooManyErrors
  | timeoutExceeded
  | fuelOut
deriving DecidableEq, Repr

/-- The error-budget check of the loop: `max_errors is not None and
error_ct > max_errors`. -/
def errBudgetHit : Option ℕ → ℕ → Bool
  | none, _ => false
  | some m, e => decide (m < e)

/-- The wall-clock check of the loop: `max_wait_time is not None and
time() - start_time > max_wait_time`. -/
def timeBudgetHit : Option ℚ → ℚ → Bool
  | none, _ => false
  | some w, t => decide (w < t)

/-- One pass structure of the `wait_for_idle` loop body (source lines
329-349), iterated on fuel. Iteration `k` sleeps `delay` (advancing the
modelled wall clock `tnow` by `delay`; queries are instantaneous), performs
query `k` (a failure keeps the previous status and increments the error
count), breaks on an at-rest status (code 0), breaks on the stop predicate,
raises on an exceeded error budget and then on exceeded wall-clock time.
Returns the outcome, the number of iterations (sleeps) performed, and the
clock at exit. -/
def wait_for_idle_loop (delay : ℚ) (maxErrors : Option ℕ) (maxWait : Option ℚ)
    (query : ℕ → QueryResult) (shouldStop : ℕ → Bool) :
    ℕ → ℕ → ℚ → ℕ → Option ℕ → WaitResult × ℕ × ℚ
  | 0, k, tnow, _, _ => (.fuelOut, k, tnow)
  | fuel + 1, k, tnow, errCt, status =>
    let t := tnow + delay
    let st := match query k with
      | .ok c => some c
      | .ioError => status
    let ec := match query k with
      | .ok _ => errCt
      | .ioError => errCt + 1
    if st = some 0 then (.done, k + 1, t)
    else if shouldStop k then (.cancelled, k + 1, t)
    else if errBudgetHit maxErrors ec then (.tooManyErrors, k + 1, t)
    else if timeBudgetHit maxWait t then (.timeoutExceeded, k + 1, t)
    else wait_for_idle_loop delay maxErrors maxWait query shouldStop fuel (k + 1) t ec st

/-- `wait_for_idle` (source lines 318-349) with `error_ct = 0`,
`status = None` and the clock started at 0, bounded by `fuel` iterations. -/
def wait_for_idle (delay : ℚ) (maxErrors : Option ℕ) (maxWait : Option ℚ)
    (query : ℕ → QueryResult) (shouldStop : ℕ → Bool) (fuel : ℕ) :
    WaitResult × ℕ × ℚ :=
  wait_for_idle_loop delay maxErrors maxWait query shouldStop fuel 0 0 0 none

/-! ### Construction-time configuration sharing

The class body sets `_FIELD_RANGE = [-16, 16]` once, a single mutable list
shared by the class and captured by the `field_setpoint` validator;
`__init__` (source lines 110-117) assigns `self._SWITCH_HEATER_DELAY = ...`,
which creates a per-instance attribute, but mutates the field range in place
with `self._FIELD_RANGE[:] = ...`, which writes through to the class-level
list. Attribute lookup reads the instance attribute when present and the
class attribute otherwise. -/

/-- The class-level attributes: the switch-heater delay default and the one
shared `_FIELD_RANGE` list. -/
structure ClassState where
  classDelay : ℚ
  fieldRange : List ℚ
deriving DecidableEq, Repr

/-- The per-instance attributes created by `__init__`: only the optional
switch-heater delay override (no instance attribute is ever created for the
field range). -/
structure InstanceState where
  delayOverride : Option ℚ
deriving DecidableEq, Repr

/-- The `field_range` argument of `__init__`: absent, a single number
(meaning the symmetric range), or an explicit pair. -/
inductive FieldRangeArg
  | noRange
  | num (x : ℚ)
  | pair (lo hi : ℚ)
deriving DecidableEq, Repr

/-- `__init__` (source lines 110-117): a given switch-heater delay becomes
an instance attribute; a given field range is written into the class-level
list in place (slice assignment), mutating it for every instance. -/
def construct (c : ClassState) (delay? : Option ℚ) (fr : FieldRangeArg) :
    ClassState × InstanceState :=
  let inst : InstanceState := { delayOverride := delay? }
  let c' := match fr with
    | .noRange => c
    | .num x => { c with fieldRange := [-x, x] }
    | .pair lo hi => { c with fieldRange := [lo, hi] }
  (c', inst)

/-- Python attribute lookup for `_SWITCH_HEATER_DELAY`: the instance
attribute when set, else the class attribute. -/
def lookupDelay (c : ClassState) (i : InstanceState) : ℚ :=
  i.delayOverride.getD c.classDelay

/-- The bounds the `field_setpoint` validator of any instance uses: the
class-level list captured at class creation (every instance reads the same
list, whichever instance is validating). -/
def validationRange (c : ClassState) : List ℚ :=
  c.fieldRange

/-! ### Observations on outcomes and traces -/

/-- Whether a driver call returned normally (no exception). -/
def succeeded : Outcome → Bool
  | Outcome.ok _ _ => true
  | Outcome.err _ _ _ => false

/-- Whether a heater status code means persistent mode (off-closed or
off-open). -/
def heaterPersistent (c : ℕ) : Bool :=
  c == 0 || c == 2

/-- Whether the device is in persistent mode at the end of a call. -/
def persistentAtEnd : Outcome → Bool
  | Outcome.ok s _ => heaterPersistent s.heater
  | Outcome.err _ s _ => heaterPersistent s.heater

/-- Whether an event is a switch-heater write. -/
def isHeaterWrite : Event → Bool
  | Event.writeHeater _ => true
  | _ => false

/-- A trace containing no switch-heater write. -/
def heaterWriteFree (tr : List Event) : Bool :=
  tr.all fun e => !isHeaterWrite e

/-- The events of the optional sweep-rate write of `set_field`. -/
def rateTrace : Option ℚ → List Event
  | some r => [Event.writeSweepRate r]
  | none => []

/-- Demand-mode invariant of an outcome: the state reached (on success or on
a raised error) still has the switch heater on, and the call wrote the
heater register not even once. -/
def demandInvariant (o : Outcome) : Prop :=
  match o with
  | Outcome.ok s tr => s.heater = 1 ∧ heaterWriteFree tr = true
  | Outcome.err _ s tr => s.heater = 1 ∧ heaterWriteFree tr = true

/-- On success the demand field reached zero (trivial on an error). -/
def zeroOnOk (o : Outcome) : Prop :=
  match o with
  | Outcome.ok s _ => s.demandField = 0
  | Outcome.err _ _ _ => True

/-! ### Concrete fixtures -/

/-- The default configuration: field range [-16, 16] T, settle delay 20 s. -/
def cfgDefault : Config :=
  { lo := -16, hi := 16, switchHeaterDelay := 20 }

/-- A configuration with the explicit field range [5, 10]. -/
def cfgNarrow : Config :=
  { lo := 5, hi := 10, switchHeaterDelay := 20 }

/-- A device in demand mode (heater on), at rest, demand field 5 T,
setpoint 3 T. -/
def demandState : DeviceState :=
  { controlMode := 3, activity := Activity.hold, heater := 1, sweepStatus := 0,
    demandField := 5, persistentField := 0, fieldSetpoint := 3, sweepRate := 1 }

/-- A device in persistent mode (heater off-closed), at rest, persistent
field 7 T, setpoint 3 T. -/
def persistentState : DeviceState :=
  { controlMode := 3, activity := Activity.hold, heater := 0, sweepStatus := 0,
    demandField := 0, persistentField := 7, fieldSetpoint := 3, sweepRate := 1 }

/-- A device in demand mode, at rest, everything at zero: the state the
magnet is trained from. -/
def trainStart : DeviceState :=
  { controlMode := 3, activity := Activity.hold, heater := 1, sweepStatus := 0,
    demandField := 0, persistentField := 0, fieldSetpoint := 0, sweepRate := 1 }

/-- A demand-mode device at rest whose demand field 7 T equals its
setpoint, used with the [5, 10] range. -/
def narrowState : DeviceState :=
  { controlMode := 3, activity := Activity.hold, heater := 1, sweepStatus := 0,
    demandField := 7, persistentField := 0, fieldSetpoint := 7, sweepRate := 1 }

/-- The device state after training from `trainStart` with the scheme
[(5, 1), (10, 2)]: heater still on (demand mode) at 0 demand field. -/
def trainEndState : DeviceState :=
  { controlMode := 3, activity := Activity.toZero, heater := 1, sweepStatus := 0,
    demandField := 0, persistentField := 0, fieldSetpoint := 10, sweepRate := 2 }

/-- The command trace of that training run. -/
def trainEndTrace : List Event :=
  [Event.writeSweepRate 1, Event.writeActivity Activity.toSetpoint,
   Event.writeFieldSetpoint 5, Event.waitIdle, Event.sleepFor 10,
   Event.writeSweepRate 2, Event.writeActivity Activity.toSetpoint,
   Event.writeFieldSetpoint 10, Event.waitIdle, Event.sleepFor 10,
   Event.writeActivity Activity.toZero, Event.waitIdle, Event.sleepFor 10]

/-! ## Helper lemmas -/

theorem heaterWriteFree_append (a b : List Event) :
    heaterWriteFree (a ++ b) = (heaterWriteFree a && heaterWriteFree b) := by
  simp [heaterWriteFree, List.all_append]

/-! ## Claims -/

/-- C1 counterexample: the claim asserts that for EVERY target, `set_field`
with `persistent_mode_control=False` on a persistent-mode device raises
`PersistentModeNotAllowed`; but when the target equals the persistent
(effective) field, the early no-op return at the top of `set_field` fires
before the safety gate and the call succeeds. Here the heater is off-closed
(persistent), the persistent field is 7 and the target is 7. -/
theorem C1_counterexample :
    set_field cfgDefault persistentState 7 none false = Outcome.ok persistentState [] := by
  decide

/-- C1 (amended): for every target DIFFERENT from the effective field, if
the device reports persistent mode (heater code 0 or 2), then
`set_field(t, rate, persistent_mode_control=False)` raises
`PersistentModeNotAllowed` (a `MagnetError`) and sends no writes: the device
state is returned unchanged and the emitted trace is empty, so Activity, the
switch-heater status and `field_setpoint` are untouched. -/
theorem C1_set_field_persistent_gate (cfg : Config) (s : DeviceState) (t : ℚ)
    (rate? : Option ℚ) (hh : s.heater = 0 ∨ s.heater = 2) (hne : field s ≠ t) :
    set_field cfg s t rate? false =
      Outcome.err DriverError.persistentModeNotAllowed s [] ∧
      DriverError.persistentModeNotAllowed.isMagnetError = true := by
  refine ⟨?_, rfl⟩
  have h1 : s.heater ≠ 1 := by rcases hh with h | h <;> omega
  simp only [set_field, if_neg hne, if_neg h1, if_pos hh, Bool.false_eq_true, if_false]

/-- C1 witness: the gate theorem applied to the persistent fixture with
target 9 (different from the 7 T persistent field). -/
theorem C1_witness :
    ((persistentState.heater = 0 ∨ persistentState.heater = 2) ∧
      field persistentState ≠ 9) ∧
    (set_field cfgDefault persistentState 9 none false =
        Outcome.err DriverError.persistentModeNotAllowed persistentState [] ∧
      DriverError.persistentModeNotAllowed.isMagnetError = true) :=
  ⟨⟨Or.inl rfl, by decide⟩,
    C1_set_field_persistent_gate cfgDefault persistentState 9 none (Or.inl rfl) (by decide)⟩

/-- C2: `enable_persistent_mode` under the at-rest precondition: heater code
0 or 2 returns success with an empty trace; heater code 1 emits exactly one
Activity=Hold write, one switch-heater-off write, one settle-delay sleep,
one Activity=ToZero write and one wait-for-idle, in that order; any other
heater code raises `SwitchHeaterStatusError`. -/
theorem C2_enable_persistent_mode (cfg : Config) (s : DeviceState)
    (hrest : s.sweepStatus = 0) :
    (s.heater = 0 ∨ s.heater = 2 → enable_persistent_mode cfg s = Outcome.ok s []) ∧
    (s.heater = 1 →
      ∃ s', enable_persistent_mode cfg s =
        Outcome.ok s' [Event.writeActivity Activity.hold, Event.writeHeater 0,
          Event.sleepFor cfg.switchHeaterDelay, Event.writeActivity Activity.toZero,
          Event.waitIdle]) ∧
    (s.heater ≠ 0 → s.heater ≠ 1 → s.heater ≠ 2 →
      enable_persistent_mode cfg s =
        Outcome.err (DriverError.switchHeaterStatus s.heater) s []) := by
  have hr : ¬(s.sweepStatus ≠ 0) := by simp [hrest]
  refine ⟨fun hh => ?_, fun h1 => ?_, fun h0 h1 h2 => ?_⟩
  · simp only [enable_persistent_mode, if_neg hr, if_pos hh]
  · have hh : ¬(s.heater = 0 ∨ s.heater = 2) := by omega
    simp only [enable_persistent_mode, if_neg hr, if_neg hh, if_pos h1]
    exact ⟨_, rfl⟩
  · have hh : ¬(s.heater = 0 ∨ s.heater = 2) := by omega
    simp only [enable_persistent_mode, if_neg hr, if_neg hh, if_neg h1]

/-- C2 witness: the theorem applied to the demand fixture (heater on, at
rest), exercising the five-step branch. -/
theorem C2_witness :
    demandState.sweepStatus = 0 ∧
    ((demandState.heater = 0 ∨ demandState.heater = 2 →
        enable_persistent_mode cfgDefault demandState = Outcome.ok demandState []) ∧
     (demandState.heater = 1 →
        ∃ s', enable_persistent_mode cfgDefault demandState =
          Outcome.ok s' [Event.writeActivity Activity.hold, Event.writeHeater 0,
            Event.sleepFor cfgDefault.switchHeaterDelay,
            Event.writeActivity Activity.toZero, Event.waitIdle]) ∧
     (demandState.heater ≠ 0 → demandState.heater ≠ 1 → demandState.heater ≠ 2 →
        enable_persistent_mode cfgDefault demandState =
          Outcome.err (DriverError.switchHeaterStatus demandState.heater) demandState [])) :=
  ⟨rfl, C2_enable_persistent_mode cfgDefault demandState rfl⟩

/-- C3 counterexample: the claim asserts `disable_persistent_mode` is a
no-op performing no device writes when the device is already in demand mode
(heater on); but the setpoint reconciliation in the source runs BEFORE the
heater branch, so on a demand-mode device whose demand field (5) differs
from its setpoint (3) the call writes `field_setpoint := 5` — a nonempty
command trace, not a no-op. -/
theorem C3_counterexample :
    disable_persistent_mode cfgDefault demandState =
      Outcome.ok { demandState with fieldSetpoint := 5 }
        [Event.writeFieldSetpoint 5] ∧
    ([Event.writeFieldSetpoint (5 : ℚ)] : List Event) ≠ [] := by
  exact ⟨by decide, by decide⟩

/-- C3 (amended): `disable_persistent_mode`, at rest and with the effective
field inside the configured range: when persistent (heater 0 or 2) it
returns success leaving `field_setpoint` equal to the pre-call effective
field; when already in demand mode (heater 1) it returns success without
touching Activity or the heater, but it is a true no-op (empty trace) only
when the effective field already equals the setpoint — otherwise it performs
exactly one `field_setpoint` reconciliation write. -/
theorem C3_disable_persistent_mode (cfg : Config) (s : DeviceState)
    (hrest : s.sweepStatus = 0) (hlo : cfg.lo ≤ field s) (hhi : field s ≤ cfg.hi) :
    (s.heater = 0 ∨ s.heater = 2 →
      ∃ s' tr, disable_persistent_mode cfg s = Outcome.ok s' tr ∧
        s'.fieldSetpoint = field s) ∧
    (s.heater = 1 →
      (field s = s.fieldSetpoint → disable_persistent_mode cfg s = Outcome.ok s []) ∧
      (field s ≠ s.fieldSetpoint →
        disable_persistent_mode cfg s =
          Outcome.ok { s with fieldSetpoint := field s }
            [Event.writeFieldSetpoint (field s)])) := by
  have hr : ¬(s.sweepStatus ≠ 0) := by simp [hrest]
  have hin : cfg.lo ≤ field s ∧ field s ≤ cfg.hi := ⟨hlo, hhi⟩
  constructor
  · intro hh
    have h1 : s.heater ≠ 1 := by rcases hh with h | h <;> omega
    by_cases heq : field s = s.fieldSetpoint
    · simp only [disable_persistent_mode, if_neg hr, ne_eq, heq, not_true_eq_false,
        if_false, if_neg h1, if_pos hh]
      refine ⟨_, _, rfl, ?_⟩
      simp [applyHeater, settle, heq]
    · simp only [disable_persistent_mode, if_neg hr, ne_eq, heq, not_false_eq_true,
        if_true, setFieldSetpoint, if_pos hin, if_neg h1, if_pos hh]
      refine ⟨_, _, rfl, ?_⟩
      simp [applyHeater, settle]
  · intro h1
    constructor
    · intro heq
      simp only [disable_persistent_mode, if_neg hr, ne_eq, heq, not_true_eq_false,
        if_false, if_pos h1]
    · intro heq
      simp only [disable_persistent_mode, if_neg hr, ne_eq, heq, not_false_eq_true,
        if_true, setFieldSetpoint, if_pos hin, if_pos h1]

/-- C3 witness: the amended theorem applied to the persistent fixture
(effective field 7, setpoint 3, default range), exercising the persistent
branch; the instantiated hypotheses are discharged by evaluation. -/
theorem C3_witness :
    (persistentState.sweepStatus = 0 ∧ cfgDefault.lo ≤ field persistentState ∧
      field persistentState ≤ cfgDefault.hi) ∧
    (persistentState.heater = 0 ∨ persistentState.heater = 2 →
      ∃ s' tr, disable_persistent_mode cfgDefault persistentState = Outcome.ok s' tr ∧
        s'.fieldSetpoint = field persistentState) :=
  ⟨⟨rfl, by decide, by decide⟩,
    (C3_disable_persistent_mode cfgDefault persistentState rfl (by decide) (by decide)).1⟩

/-- C4: when the target equals the current effective field (demand field
with the heater on, persistent field with it off), `set_field` returns
success at once with an empty trace: zero register writes, whatever the
sweep rate argument and the persistent-mode-control flag. -/
theorem C4_set_field_noop (cfg : Config) (s : DeviceState) (t : ℚ)
    (rate? : Option ℚ) (pmc : Bool) (h : field s = t) :
    set_field cfg s t rate? pmc = Outcome.ok s [] := by
  simp only [set_field, if_pos h]

/-- C4 witness: the no-op law at the persistent fixture, target 7 = its
persistent field. -/
theorem C4_witness :
    field persistentState = 7 ∧
    set_field cfgDefault persistentState 7 (some 2) true = Outcome.ok persistentState [] :=
  ⟨by decide, C4_set_field_noop cfgDefault persistentState 7 (some 2) true (by decide)⟩

/-- With the heater on, the effective field is the demand field. -/
theorem field_heater_on (s : DeviceState) (h1 : s.heater = 1) :
    field s = s.demandField := by
  simp [field, h1]

/-- `set_field` with persistent-mode control disabled, or with target 0,
started from demand mode, keeps the heater on and never writes the heater
register, on success and on error alike. -/
theorem set_field_demand (cfg : Config) (s : DeviceState) (t : ℚ)
    (rate? : Option ℚ) (pmc : Bool) (h1 : s.heater = 1)
    (hp : pmc = false ∨ t = 0) :
    demandInvariant (set_field cfg s t rate? pmc) := by
  by_cases hfe : field s = t
  · simp [set_field, if_pos hfe, demandInvariant, h1, heaterWriteFree]
  · by_cases ht : t = 0
    · subst ht
      rcases rate? with _ | r <;>
        simp [set_field, if_neg hfe, h1, demandInvariant, settle, heaterWriteFree,
          isHeaterWrite, setFieldSetpoint]
    · have hpmc : pmc = false := hp.resolve_right ht
      subst hpmc
      by_cases hin : cfg.lo ≤ t ∧ t ≤ cfg.hi <;>
        rcases rate? with _ | r <;>
          simp [set_field, if_neg hfe, h1, ht, hin, demandInvariant, settle,
            heaterWriteFree, isHeaterWrite, setFieldSetpoint]

/-- `set_field` to target 0 from demand mode leaves the demand field at 0
on success. -/
theorem set_field_zero (cfg : Config) (s : DeviceState) (rate? : Option ℚ)
    (pmc : Bool) (h1 : s.heater = 1) :
    zeroOnOk (set_field cfg s 0 rate? pmc) := by
  by_cases hfe : field s = 0
  · have hd : s.demandField = 0 := (field_heater_on s h1) ▸ hfe
    simp [set_field, if_pos hfe, zeroOnOk, hd]
  · rcases rate? with _ | r <;>
      simp [set_field, if_neg hfe, h1, zeroOnOk, settle, setFieldSetpoint]

/-- The training loop from demand mode keeps the heater on and writes the
heater register not even once, on success and on error alike. -/
theorem train_steps_demand (cfg : Config) (scheme : List (ℚ × ℚ)) :
    ∀ s : DeviceState, s.heater = 1 → demandInvariant (train_steps cfg scheme s) := by
  induction scheme with
  | nil =>
    intro s h1
    simp [train_steps, demandInvariant, h1, heaterWriteFree]
  | cons p rest ih =>
    intro s h1
    obtain ⟨f, r⟩ := p
    have hsf := set_field_demand cfg s f (some r) false h1 (Or.inl rfl)
    simp only [train_steps]
    cases hcase : set_field cfg s f (some r) false with
    | err e s' tr =>
      rw [hcase] at hsf
      simp only [hcase]
      simpa [demandInvariant] using hsf
    | ok s' tr =>
      rw [hcase] at hsf
      simp only [demandInvariant] at hsf
      have hrec := ih s' hsf.1
      simp only [hcase]
      cases hrec2 : train_steps cfg rest s' with
      | err e s'' tr' =>
        rw [hrec2] at hrec
        simp only [hrec2, demandInvariant] at hrec ⊢
        exact ⟨hrec.1, by simp [heaterWriteFree_append, hsf.2, hrec.2]⟩
      | ok s'' tr' =>
        rw [hrec2] at hrec
        simp only [hrec2, demandInvariant] at hrec ⊢
        exact ⟨hrec.1, by simp [heaterWriteFree_append, hsf.2, hrec.2]⟩

/-- C5 counterexample: the claim asserts that `train_magnet` ends with the
magnet in Persistent mode at 0 field; but the trailing `set_field(0)` takes
the to-zero path and deliberately skips `enable_persistent_mode` for a zero
target (documented in the `set_field` docstring), so the training run from
demand mode succeeds while leaving the switch heater on — demand mode, not
persistent. -/
theorem C5_counterexample :
    succeeded (train_magnet cfgDefault [(5, 1), (10, 2)] trainStart) = true ∧
    persistentAtEnd (train_magnet cfgDefault [(5, 1), (10, 2)] trainStart) = false := by
  exact ⟨by decide, by decide⟩

/-- C5 (amended): `train_magnet` runs `set_field(field, rate,
persistent_mode_control=False)` for each pair in order and then
`set_field(0)` with the default `persistent_mode_control=True`; started from
demand mode, the switch heater is never written during the whole sequence
(training steps and final zeroing alike, also on an error), and a successful
run ends with the heater still on — demand mode, NOT persistent mode — at 0
demand field, because `set_field` does not re-enable persistent mode for a
zero target. -/
theorem C5_train_magnet (cfg : Config) (scheme : List (ℚ × ℚ)) (s : DeviceState)
    (h1 : s.heater = 1) :
    (∀ sF trF, train_magnet cfg scheme s = Outcome.ok sF trF →
        sF.heater = 1 ∧ heaterPersistent sF.heater = false ∧ sF.demandField = 0 ∧
        heaterWriteFree trF = true) ∧
    (∀ e sF trF, train_magnet cfg scheme s = Outcome.err e sF trF →
        sF.heater = 1 ∧ heaterWriteFree trF = true) := by
  have hsteps := train_steps_demand cfg scheme s h1
  constructor
  · intro sF trF hF
    simp only [train_magnet] at hF
    cases hts : train_steps cfg scheme s with
    | err e s' tr =>
      simp only [hts] at hF
      exact Outcome.noConfusion hF
    | ok s' tr =>
      rw [hts] at hsteps
      simp only [hts] at hF
      simp only [demandInvariant] at hsteps
      have hfin := set_field_demand cfg s' 0 none true hsteps.1 (Or.inr rfl)
      have hzero := set_field_zero cfg s' none true hsteps.1
      cases hsf : set_field cfg s' 0 none true with
      | err e s'' tr'' =>
        simp only [hsf] at hF
        exact Outcome.noConfusion hF
      | ok s'' tr'' =>
        rw [hsf] at hfin hzero
        simp only [hsf] at hF
        simp only [demandInvariant, zeroOnOk] at hfin hzero
        simp only [Outcome.ok.injEq] at hF
        obtain ⟨rfl, rfl⟩ := hF
        exact ⟨hfin.1, by simp [heaterPersistent, hfin.1], hzero,
          by simp [heaterWriteFree_append, hsteps.2, hfin.2]⟩
  · intro e sF trF hF
    simp only [train_magnet] at hF
    cases hts : train_steps cfg scheme s with
    | err e' s' tr =>
      rw [hts] at hsteps
      simp only [hts] at hF
      simp only [demandInvariant] at hsteps
      simp only [Outcome.err.injEq] at hF
      obtain ⟨rfl, rfl, rfl⟩ := hF
      exact hsteps
    | ok s' tr =>
      rw [hts] at hsteps
      simp only [hts] at hF
      simp only [demandInvariant] at hsteps
      have hfin := set_field_demand cfg s' 0 none true hsteps.1 (Or.inr rfl)
      cases hsf : set_field cfg s' 0 none true with
      | err e'' s'' tr'' =>
        rw [hsf] at hfin
        simp only [hsf] at hF
        simp only [demandInvariant] at hfin
        simp only [Outcome.err.injEq] at hF
        obtain ⟨rfl, rfl, rfl⟩ := hF
        exact ⟨hfin.1, by simp [heaterWriteFree_append, hsteps.2, hfin.2]⟩
      | ok s'' tr'' =>
        simp only [hsf] at hF
        exact Outcome.noConfusion hF

/-- C5 witness: the amended theorem applied to the concrete training scheme
[(5, 1), (10, 2)] from the all-zero demand-mode start, at the evaluated run
result `trainEndState`/`trainEndTrace`. -/
theorem C5_witness :
    trainStart.heater = 1 ∧
    (trainEndState.heater = 1 ∧ heaterPersistent trainEndState.heater = false ∧
      trainEndState.demandField = 0 ∧ heaterWriteFree trainEndTrace = true) :=
  ⟨rfl,
    (C5_train_magnet cfgDefault [(5, 1), (10, 2)] trainStart rfl).1
      trainEndState trainEndTrace (by decide)⟩

/-- C6 counterexample: the claim asserts that any `set_field` target outside
the configured [low, high] range is rejected with an error before any command
is sent; but a target of 0 is handled by the dedicated to-zero path, which
never consults the setpoint validator: with the configured range [5, 10] and
the out-of-range target 0, the call succeeds and ramps to zero. -/
theorem C6_counterexample :
    succeeded (set_field cfgNarrow narrowState 0 none true) = true ∧
    ¬(cfgNarrow.lo ≤ (0 : ℚ) ∧ (0 : ℚ) ≤ cfgNarrow.hi) := by
  exact ⟨by decide, by decide⟩

/-- C6 (amended): a NONZERO out-of-range target (different from the current
effective field, from demand mode) is rejected by the setpoint validator
with an error, the out-of-range value is never transmitted as a setpoint
write and never silently replaced — but the rejection happens only AFTER
the Activity=ToSetpoint command (and the optional sweep-rate command) has
already been sent to the channel, and a target of 0 bypasses the range
check entirely via the to-zero path. -/
theorem C6_set_field_range (cfg : Config) (s : DeviceState) (t : ℚ)
    (rate? : Option ℚ) (pmc : Bool) (h1 : s.heater = 1) (hne : field s ≠ t)
    (ht : t ≠ 0) (hout : ¬(cfg.lo ≤ t ∧ t ≤ cfg.hi)) :
    ∃ s', set_field cfg s t rate? pmc =
      Outcome.err (DriverError.setpointOutOfRange t) s'
        (rateTrace rate? ++ [Event.writeActivity Activity.toSetpoint]) := by
  rcases rate? with _ | r <;>
    simp [set_field, if_neg hne, h1, ht, setFieldSetpoint, if_neg hout, rateTrace]

/-- C6 witness: the amended theorem at the default range [-16, 16] with the
out-of-range target 20 from the demand fixture and an explicit sweep rate. -/
theorem C6_witness :
    (demandState.heater = 1 ∧ field demandState ≠ 20 ∧ (20 : ℚ) ≠ 0 ∧
      ¬(cfgDefault.lo ≤ (20 : ℚ) ∧ (20 : ℚ) ≤ cfgDefault.hi)) ∧
    (∃ s', set_field cfgDefault demandState 20 (some 3) true =
      Outcome.err (DriverError.setpointOutOfRange 20) s'
        (rateTrace (some 3) ++ [Event.writeActivity Activity.toSetpoint])) :=
  ⟨⟨rfl, by decide, by decide, by decide⟩,
    C6_set_field_range cfgDefault demandState 20 (some 3) true rfl (by decide)
      (by decide) (by decide)⟩

/-- In the `wait_for_idle` loop, when every query up to index `m` fails and
the stop predicate never fires, the error budget `max_errors = m` is
exceeded exactly at iteration `m + 1` and the loop raises, for any
sufficiently large fuel bound. Invariant: entering iteration `k` with
`error_ct = k` and no status decoded yet. -/
theorem wait_loop_all_errors (delay : ℚ) (m : ℕ)
    (query : ℕ → QueryResult) (shouldStop : ℕ → Bool)
    (herr : ∀ j, j ≤ m → query j = QueryResult.ioError)
    (hstop : ∀ k, shouldStop k = false) :
    ∀ fuel k tnow, k ≤ m → m + 1 - k ≤ fuel →
      ∃ t, wait_for_idle_loop delay (some m) none query shouldStop fuel k tnow k none =
        (WaitResult.tooManyErrors, m + 1, t) := by
  intro fuel
  induction fuel with
  | zero =>
    intro k tnow hk hf
    omega
  | succ fuel ih =>
    intro k tnow hk hf
    have hq : query k = QueryResult.ioError := herr k hk
    by_cases hkm : k = m
    · subst hkm
      simp only [wait_for_idle_loop, hq, hstop]
      simp [errBudgetHit, Nat.lt_succ_self]
    · have hlt : ¬(m < k + 1) := by omega
      have hrec := ih (k + 1) (tnow + delay) (by omega) (by omega)
      simp only [wait_for_idle_loop, hq, hstop]
      simpa [errBudgetHit, timeBudgetHit, hlt] using hrec

/-- C7: `wait_for_idle` with a non-None `max_errors = m` on a device whose
queries all fail up to index `m`, with a never-firing stop predicate and no
wall-clock bound, raises `TooManyErrors` (a `MagnetError` in the source) at
exactly iteration `m + 1` — as soon as the error count exceeds the budget —
and never returns success: errors are counted and tolerated up to the
budget, then the loop aborts. -/
theorem C7_wait_for_idle_too_many_errors (delay : ℚ) (m fuel : ℕ)
    (query : ℕ → QueryResult) (shouldStop : ℕ → Bool)
    (herr : ∀ j, j ≤ m → query j = QueryResult.ioError)
    (hstop : ∀ k, shouldStop k = false) (hfuel : m + 1 ≤ fuel) :
    ∃ t, wait_for_idle delay (some m) none query shouldStop fuel =
      (WaitResult.tooManyErrors, m + 1, t) :=
  wait_loop_all_errors delay m query shouldStop herr hstop fuel 0 0
    (Nat.zero_le m) (by omega)

/-- C7 witness: `max_errors = 2` with the first three queries failing and
the fourth reading at-rest (code 0): the loop raises `TooManyErrors` at
iteration 3 and the at-rest answer is never seen. -/
theorem C7_witness :
    ∃ t, wait_for_idle 1 (some 2) none
        (fun k => if k < 3 then QueryResult.ioError else QueryResult.ok 0)
        (fun _ => false) 10 = (WaitResult.tooManyErrors, 3, t) :=
  C7_wait_for_idle_too_many_errors 1 2 10
    (fun k => if k < 3 then QueryResult.ioError else QueryResult.ok 0)
    (fun _ => false)
    (fun j hj => by simp only [if_pos (show j < 3 by omega)])
    (fun k => rfl) (by omega)

/-- In the `wait_for_idle` loop with no error budget and wall-clock bound
`W`, when no query ever decodes to at-rest and the stop predicate never
fires, the loop raises Timeout at the first iteration whose clock exceeds
`W`; the clock at the raise is above `W` by at most one poll interval.
Invariant: the clock `tnow` at entry has not yet exceeded `W`, and enough
fuel remains to push the clock past `W`. -/
theorem wait_loop_timeout (delay W : ℚ) (query : ℕ → QueryResult)
    (shouldStop : ℕ → Bool)
    (hq : ∀ j c, query j = QueryResult.ok c → c ≠ 0)
    (hstop : ∀ k, shouldStop k = false) :
    ∀ (fuel k : ℕ) (tnow : ℚ) (status : Option ℕ), status ≠ some 0 → tnow ≤ W →
      W < tnow + (fuel : ℚ) * delay → ∀ errCt,
      ∃ n t, wait_for_idle_loop delay none (some W) query shouldStop
          fuel k tnow errCt status =
        (WaitResult.timeoutExceeded, n, t) ∧ W < t ∧ t ≤ W + delay := by
  intro fuel
  induction fuel with
  | zero =>
    intro k tnow status hst htw hfw errCt
    exfalso
    simp only [Nat.cast_zero, zero_mul, add_zero] at hfw
    linarith
  | succ fuel ih =>
    intro k tnow status hst htw hfw errCt
    have hfw' : W < (tnow + delay) + fuel * delay := by
      push_cast at hfw ⊢
      linarith
    cases hq2 : query k with
    | ok c =>
      have hc : c ≠ 0 := hq k c hq2
      by_cases htime : W < tnow + delay
      · refine ⟨k + 1, tnow + delay, ?_, htime, by linarith⟩
        simp only [wait_for_idle_loop, hq2, hstop]
        simp [errBudgetHit, timeBudgetHit, hc, htime]
      · have h2 : tnow + delay ≤ W := le_of_not_lt htime
        have hrec := ih (k + 1) (tnow + delay) (some c) (by simp [hc]) h2 hfw' errCt
        simp only [wait_for_idle_loop, hq2, hstop]
        simpa [errBudgetHit, timeBudgetHit, hc, htime] using hrec
    | ioError =>
      by_cases htime : W < tnow + delay
      · refine ⟨k + 1, tnow + delay, ?_, htime, by linarith⟩
        simp only [wait_for_idle_loop, hq2, hstop]
        simp [errBudgetHit, timeBudgetHit, hst, htime]
      · have h2 : tnow + delay ≤ W := le_of_not_lt htime
        have hrec := ih (k + 1) (tnow + delay) status hst h2 hfw' (errCt + 1)
        simp only [wait_for_idle_loop, hq2, hstop]
        simpa [errBudgetHit, timeBudgetHit, hst, htime] using hrec

/-- C8: `wait_for_idle` with a finite `max_wait_time = W`, on a device that
never reports at-rest and with an always-false cancel predicate, raises
Timeout (Python `TimeoutError`) rather than looping forever or returning
success: the loop ends at the first poll whose (modelled, sleep-dominated)
clock exceeds `W`, and that clock reading is above `W` by at most one poll
interval `delay`. -/
theorem C8_wait_for_idle_timeout (delay W : ℚ) (fuel : ℕ)
    (query : ℕ → QueryResult) (shouldStop : ℕ → Bool)
    (hd : 0 < delay) (hW : 0 ≤ W)
    (hq : ∀ j c, query j = QueryResult.ok c → c ≠ 0)
    (hstop : ∀ k, shouldStop k = false) (hfuel : W < fuel * delay) :
    ∃ n t, wait_for_idle delay none (some W) query shouldStop fuel =
      (WaitResult.timeoutExceeded, n, t) ∧ W < t ∧ t ≤ W + delay := by
  have h := wait_loop_timeout delay W query shouldStop hq hstop fuel 0 0 none
    (by simp) hW (by simpa using hfuel) 0
  simpa [wait_for_idle] using h

/-- C8 witness: `max_wait_time = 5` with one-second polls on a device that
always reports sweeping (code 1): Timeout is raised with the clock past 5
but within 5 + 1. -/
theorem C8_witness :
    ∃ n t, wait_for_idle 1 none (some 5) (fun _ => QueryResult.ok 1)
        (fun _ => false) 6 = (WaitResult.timeoutExceeded, n, t) ∧
      (5 : ℚ) < t ∧ t ≤ 5 + 1 :=
  C8_wait_for_idle_timeout 1 5 6 (fun _ => QueryResult.ok 1) (fun _ => false)
    (by norm_num) (by norm_num)
    (fun j c h => by injection h with h'; omega)
    (fun k => rfl) (by norm_num)

/-- C9: `disable_control` with a nonzero effective field raises a
`MagnetError` with an empty trace (no heater write, no clamp, no
control-mode change); with the effective field at zero it proceeds to
switch the heater off, clamp the output and set local control, in that
order. -/
theorem C9_disable_control (s : DeviceState) :
    (field s ≠ 0 →
      disable_control s = Outcome.err DriverError.fieldNotZero s [] ∧
        DriverError.fieldNotZero.isMagnetError = true) ∧
    (field s = 0 →
      ∃ s', disable_control s =
        Outcome.ok s' [Event.writeHeater 0, Event.writeActivity Activity.clamp,
          Event.writeControlMode 2]) := by
  constructor
  · intro h
    exact ⟨by simp only [disable_control, if_pos h], rfl⟩
  · intro h
    simp only [disable_control, if_neg (not_not_intro h)]
    exact ⟨_, rfl⟩

/-- C9 witness: the theorem applied to the demand fixture, whose effective
field is 5 ≠ 0, exercising the hard-fail branch. -/
theorem C9_witness :
    field demandState ≠ 0 ∧
    (disable_control demandState = Outcome.err DriverError.fieldNotZero demandState [] ∧
      DriverError.fieldNotZero.isMagnetError = true) :=
  ⟨by decide, (C9_disable_control demandState).1 (by decide)⟩

/-- C10 counterexample: the claim asserts that constructing a second driver
instance with an explicit `field_range` leaves the bounds used by the first
instance unchanged; but `__init__` writes the new range into the class-level
`_FIELD_RANGE` list in place (slice assignment), the very list the
`field_setpoint` validator of every instance captured at class creation.
Constructing instance A with the default range and then instance B with
`field_range = 5` leaves A validating against [-5, 5], not [-16, 16]. -/
theorem C10_counterexample :
    validationRange
        (construct
          (construct { classDelay := 20, fieldRange := [-16, 16] } none
            FieldRangeArg.noRange).1
          none (FieldRangeArg.num 5)).1 = [-5, 5] ∧
    ([-5, 5] : List ℚ) ≠ [-16, 16] := by
  exact ⟨by decide, by decide⟩

/-- C10 (amended): the switch-heater settle delay is genuinely per-instance
(assigned as an instance attribute, so a later construction leaves an
earlier instance's delay unchanged), but the field range is process-wide
shared mutable state: constructing any instance with an explicit
`field_range` rewrites in place the single class-level list that every
instance's `field_setpoint` validation reads. -/
theorem C10_field_range_shared (c0 : ClassState) (dA dB : Option ℚ) (x : ℚ) :
    lookupDelay
        (construct (construct c0 dA FieldRangeArg.noRange).1 dB (FieldRangeArg.num x)).1
        (construct c0 dA FieldRangeArg.noRange).2 =
      lookupDelay (construct c0 dA FieldRangeArg.noRange).1
        (construct c0 dA FieldRangeArg.noRange).2 ∧
    validationRange
        (construct (construct c0 dA FieldRangeArg.noRange).1 dB (FieldRangeArg.num x)).1 =
      [-x, x] := by
  exact ⟨rfl, rfl⟩

end IPS120
